import Mathlib

/-!
Shallow embedding of the Quora-API express application (question/answer
routers, validation middleware, and the PostgreSQL statements they issue)
together with proofs about its vote-recording behaviour.

Modelling conventions:
  * JavaScript request-body values are modelled by `JsValue`; JS truthiness
    is `jsTruthy`.  Route handlers run only after their validation
    middleware calls `next()`, which the route definitions encode by
    matching on the validator result first.
  * The PostgreSQL database is a record of lists of rows (`DB`), one list
    per table touched by the source (`questions`, `answers`,
    `question_votes`, `answer_votes`) plus the serial-id counters.
  * Timestamps (`new Date()`) are an abstract `Nat` supplied by the caller.
  * The fused vote statements (`with newField as (insert ...) select ...`)
    follow PostgreSQL's documented semantics for data-modifying CTEs
    (PostgreSQL manual §7.8.2): the sub-statement's insert is executed
    exactly once and always to completion, but the main query is run
    against the same snapshot as the CTE, so it cannot see the row the
    CTE inserted; `returning *` is the only channel from the CTE to the
    main query.  The embedding therefore appends the new vote row to the
    table while aggregating over the pre-statement snapshot.
-/

namespace Quora

/-- A JavaScript value as it can appear in a parsed JSON request body
(objects and arrays are never inspected by the validators, so they are
not modelled). -/
inductive JsValue where
  | undefined
  | null
  | bool (b : Bool)
  | num (n : Int)
  | str (s : String)
deriving DecidableEq, Repr

/-- JavaScript truthiness, as used by the `if (!x)` guards of the
middleware: `undefined`, `null`, `false`, `0` and the empty string are
falsy, everything else is truthy. -/
def jsTruthy : JsValue → Bool
  | .undefined => false
  | .null => false
  | .bool b => b
  | .num n => n != 0
  | .str s => s != ""

/-- Shared 400 message of the missing-field guards. -/
def missingMsg : String := "Missing or invalid request data."

/-- `validateQuestion` middleware: the three `if (!req.body.field)`
guards on `title`, `description`, `category`.  Returns `some message`
when the middleware responds 400, `none` when it calls `next()`. -/
def validateQuestion (title desc category : JsValue) : Option String :=
  if !(jsTruthy title) then some missingMsg
  else if !(jsTruthy desc) then some missingMsg
  else if !(jsTruthy category) then some missingMsg
  else none

/-- `validateQuestionUpVote` middleware: reject falsy `req.body.vote`
with the missing-data message, reject `vote !== "1"` with
"Please enter only 1.", otherwise `next()`. -/
def validateQuestionUpVote (vote : JsValue) : Option String :=
  if !(jsTruthy vote) then some missingMsg
  else if vote != JsValue.str "1" then some "Please enter only 1."
  else none

/-- `validateQuestionDownVote` middleware: as the upvote validator but
the accepted literal is the string `"-1"`. -/
def validateQuestionDownVote (vote : JsValue) : Option String :=
  if !(jsTruthy vote) then some missingMsg
  else if vote != JsValue.str "-1" then some "Please enter only -1."
  else none

/-- `validateAnswerUpVote` middleware (identical body to the question
upvote validator). -/
def validateAnswerUpVote (vote : JsValue) : Option String :=
  if !(jsTruthy vote) then some missingMsg
  else if vote != JsValue.str "1" then some "Please enter only 1."
  else none

/-- `validateAnswerDownVote` middleware (identical body to the question
downvote validator). -/
def validateAnswerDownVote (vote : JsValue) : Option String :=
  if !(jsTruthy vote) then some missingMsg
  else if vote != JsValue.str "-1" then some "Please enter only -1."
  else none

/-- JavaScript `x.length` as read by `validateAnswer`: the length of a
string, `undefined` (here `none`) for the other modelled values. -/
def jsLength : JsValue → Option Int
  | .str s => some s.length
  | _ => none

/-- JavaScript `x > n` where `x` may be `undefined`: any comparison with
`undefined` is false. -/
def jsGtNum : Option Int → Int → Bool
  | some a, b => a > b
  | none, _ => false

/-- `validateAnswer` middleware: reject falsy `req.body.content`, then
reject `content.length > 300`, otherwise `next()`. -/
def validateAnswer (content : JsValue) : Option String :=
  if !(jsTruthy content) then some missingMsg
  else if jsGtNum (jsLength content) 300 then some "Textlength is over 300."
  else none

/-- `validateQuery` middleware: iterate over the query-string keys
(`for (let key in req.query)`) and respond 400 on the first key that is
neither `"title"` nor `"category"`; call `next()` when all keys pass. -/
def validateQuery : List (String × String) → Option String
  | [] => none
  | (k, _) :: rest =>
    if k != "title" && k != "category" then some "Please enter a correct query."
    else validateQuery rest

/-- A row of the `questions` table. -/
structure Question where
  id : Int
  title : String
  description : String
  category : String
  created_at : Nat
  updated_at : Nat
deriving DecidableEq, Repr

/-- A row of the `answers` table. -/
structure Answer where
  id : Int
  question_id : Int
  content : String
  created_at : Nat
  updated_at : Nat
deriving DecidableEq, Repr

/-- A row of the `question_votes` / `answer_votes` tables: `target_id`
is the `question_id` (resp. `answer_id`) column. -/
structure VoteEvent where
  id : Int
  target_id : Int
  vote : Int
  created_at : Nat
  updated_at : Nat
deriving DecidableEq, Repr

/-- The PostgreSQL database reachable from `connectionPool`: the four
tables the routers touch, plus the serial sequences that assign row ids.
No table stores a vote counter; tallies exist only as query results. -/
structure DB where
  questions : List Question
  answers : List Answer
  question_votes : List VoteEvent
  answer_votes : List VoteEvent
  next_question_id : Int
  next_answer_id : Int
  next_question_vote_id : Int
  next_answer_vote_id : Int
deriving DecidableEq, Repr

/-- node-postgres serialization of a JS parameter value to the text sent
to PostgreSQL; `null`/`undefined` become SQL NULL (`none`). -/
def pgTextOfJs : JsValue → Option String
  | .str s => some s
  | .num n => some (toString n)
  | .bool b => some (if b then "true" else "false")
  | .null => none
  | .undefined => none

/-- Value of a decimal digit character, `none` otherwise. -/
def digitVal (c : Char) : Option Nat :=
  if '0' ≤ c ∧ c ≤ '9' then some (c.toNat - 48) else none

/-- Accumulating base-10 parse of a digit string. -/
def parseDigitsAux : List Char → Nat → Option Nat
  | [], acc => some acc
  | c :: cs, acc =>
    match digitVal c with
    | some d => parseDigitsAux cs (acc * 10 + d)
    | none => none

/-- Parse of a non-empty, all-digit character list. -/
def parseDigits : List Char → Option Nat
  | [] => none
  | c :: cs => parseDigitsAux (c :: cs) 0

/-- Parse of a decimal integer with optional leading minus sign (the
text-to-`integer` cast PostgreSQL applies to the `vote` parameter). -/
def pgParseInt (s : String) : Option Int :=
  match s.data with
  | '-' :: rest => (parseDigits rest).map fun n => -(n : Int)
  | cs => (parseDigits cs).map fun n => (n : Int)

/-- PostgreSQL cast of a parameter to the `integer` column type of the
`vote` columns: serialize the JS value, then parse the text as an
integer.  `none` means the statement errors (caught as a 500 by every
handler); after the vote validators only `"1"` and `"-1"` reach this. -/
def pgIntParam (v : JsValue) : Option Int :=
  (pgTextOfJs v).bind pgParseInt

/-- Row shape produced by the question vote statements: the question's
own columns joined with the two `count(case ...)` aggregates. -/
structure QuestionVoteRow where
  id : Int
  title : String
  description : String
  category : String
  created_at : Nat
  updated_at : Nat
  upvote : Nat
  downvote : Nat
deriving DecidableEq, Repr

/-- Row shape produced by the answer vote statements. -/
structure AnswerVoteRow where
  id : Int
  question_id : Int
  content : String
  created_at : Nat
  updated_at : Nat
  upvote : Nat
  downvote : Nat
deriving DecidableEq, Repr

/-- The fused statement of `POST /questions/:id/upvote|downvote`:

`with newField as (insert into question_votes ... returning *)
select questions..., count(case when vote = 1 ...) as upvote,
count(case when vote = -1 ...) as downvote
from questions inner join question_votes on questions.id = question_votes.question_id
inner join newField on newField.question_id = question_votes.question_id
where questions.id = $1 group by questions.id`.

Per PostgreSQL's data-modifying-CTE rules the insert into
`question_votes` runs exactly once and to completion (second component
of the result is the updated database), while the main query reads
`question_votes` from the pre-statement snapshot and so never sees the
just-inserted row; `newField` holds only the `returning *` row.  The
`group by questions.id` produces at most one group because the where
clause pins `questions.id = $1` (`id` is the primary key), so the
result row's non-aggregated columns come from that single question. -/
def questionVoteStatement (db : DB) (qid : Int) (dir : Int) (now : Nat) :
    DB × List QuestionVoteRow :=
  let newVote : VoteEvent :=
    ⟨db.next_question_vote_id, qid, dir, now, now⟩
  let newField : List VoteEvent := [newVote]
  let db2 : DB :=
    { db with
      question_votes := db.question_votes ++ [newVote]
      next_question_vote_id := db.next_question_vote_id + 1 }
  let snapshot := db.question_votes
  let joined :=
    (db.questions.filter (fun q => q.id == qid)).flatMap fun q =>
      (snapshot.filter (fun v => v.target_id == q.id)).flatMap fun v =>
        (newField.filter (fun nf => nf.target_id == v.target_id)).map fun _ => (q, v)
  let rows : List QuestionVoteRow :=
    match joined with
    | [] => []
    | (q, _) :: _ =>
      [⟨q.id, q.title, q.description, q.category, q.created_at, q.updated_at,
        (joined.filter fun p => p.2.vote == 1).length,
        (joined.filter fun p => p.2.vote == -1).length⟩]
  (db2, rows)

/-- The fused statement of `POST /answers/:id/upvote|downvote`, identical
in structure to `questionVoteStatement` but over `answers` and
`answer_votes`. -/
def answerVoteStatement (db : DB) (aid : Int) (dir : Int) (now : Nat) :
    DB × List AnswerVoteRow :=
  let newVote : VoteEvent :=
    ⟨db.next_answer_vote_id, aid, dir, now, now⟩
  let newField : List VoteEvent := [newVote]
  let db2 : DB :=
    { db with
      answer_votes := db.answer_votes ++ [newVote]
      next_answer_vote_id := db.next_answer_vote_id + 1 }
  let snapshot := db.answer_votes
  let joined :=
    (db.answers.filter (fun a => a.id == aid)).flatMap fun a =>
      (snapshot.filter (fun v => v.target_id == a.id)).flatMap fun v =>
        (newField.filter (fun nf => nf.target_id == v.target_id)).map fun _ => (a, v)
  let rows : List AnswerVoteRow :=
    match joined with
    | [] => []
    | (a, _) :: _ =>
      [⟨a.id, a.question_id, a.content, a.created_at, a.updated_at,
        (joined.filter fun p => p.2.vote == 1).length,
        (joined.filter fun p => p.2.vote == -1).length⟩]
  (db2, rows)

/-- HTTP responses produced by the routers, indexed by the shape of the
success body. -/
inductive Response (ρ : Type) where
  | badRequest (message : String)
  | ok (message : String) (body : ρ)
  | created (message : String) (body : ρ)
  | notFound (message : String)
  | serverError (message : String)
deriving DecidableEq, Repr

/-- True exactly on a 400 response. -/
def Response.is400 {ρ : Type} : Response ρ → Bool
  | .badRequest _ => true
  | _ => false

/-- Handler body of `questionRouter.post("/:id/upvote")`: run the fused
statement, then map `rowCount === 0` to 404 and otherwise return 200
with `results.rows[0]`. -/
def questionUpvoteHandler (db : DB) (qid : Int) (vote : JsValue) (now : Nat) :
    DB × Response QuestionVoteRow :=
  match pgIntParam vote with
  | none =>
    (db, .serverError "Server could not vote question because database connection.")
  | some dir =>
    let res := questionVoteStatement db qid dir now
    match res.2 with
    | [] => (res.1, .notFound "Question not found.")
    | r :: _ => (res.1, .ok "Successfully upvoted the question." r)

/-- Handler body of `questionRouter.post("/:id/downvote")`. -/
def questionDownvoteHandler (db : DB) (qid : Int) (vote : JsValue) (now : Nat) :
    DB × Response QuestionVoteRow :=
  match pgIntParam vote with
  | none =>
    (db, .serverError "Server could not vote question because database connection.")
  | some dir =>
    let res := questionVoteStatement db qid dir now
    match res.2 with
    | [] => (res.1, .notFound "Question not found.")
    | r :: _ => (res.1, .ok "Successfully downvoted the question." r)

/-- Handler body of `answerRouter.post("/:id/upvote")`. -/
def answerUpvoteHandler (db : DB) (aid : Int) (vote : JsValue) (now : Nat) :
    DB × Response AnswerVoteRow :=
  match pgIntParam vote with
  | none =>
    (db, .serverError "Server could not vote answer because database connection.")
  | some dir =>
    let res := answerVoteStatement db aid dir now
    match res.2 with
    | [] => (res.1, .notFound "Answer not found.")
    | r :: _ => (res.1, .ok "Successfully upvoted the answer." r)

/-- Handler body of `answerRouter.post("/:id/downvote")`. -/
def answerDownvoteHandler (db : DB) (aid : Int) (vote : JsValue) (now : Nat) :
    DB × Response AnswerVoteRow :=
  match pgIntParam vote with
  | none =>
    (db, .serverError "Server could not vote answer because database connection.")
  | some dir =>
    let res := answerVoteStatement db aid dir now
    match res.2 with
    | [] => (res.1, .notFound "Answer not found.")
    | r :: _ => (res.1, .ok "Successfully downvoted the answer." r)

/-- Full route `POST /questions/:id/upvote`: the validation middleware
runs first and a 400 short-circuits the handler, leaving the database
untouched. -/
def postQuestionUpvote (db : DB) (qid : Int) (vote : JsValue) (now : Nat) :
    DB × Response QuestionVoteRow :=
  match validateQuestionUpVote vote with
  | some msg => (db, .badRequest msg)
  | none => questionUpvoteHandler db qid vote now

/-- Full route `POST /questions/:id/downvote`. -/
def postQuestionDownvote (db : DB) (qid : Int) (vote : JsValue) (now : Nat) :
    DB × Response QuestionVoteRow :=
  match validateQuestionDownVote vote with
  | some msg => (db, .badRequest msg)
  | none => questionDownvoteHandler db qid vote now

/-- Full route `POST /answers/:id/upvote`. -/
def postAnswerUpvote (db : DB) (aid : Int) (vote : JsValue) (now : Nat) :
    DB × Response AnswerVoteRow :=
  match validateAnswerUpVote vote with
  | some msg => (db, .badRequest msg)
  | none => answerUpvoteHandler db aid vote now

/-- Full route `POST /answers/:id/downvote`. -/
def postAnswerDownvote (db : DB) (aid : Int) (vote : JsValue) (now : Nat) :
    DB × Response AnswerVoteRow :=
  match validateAnswerDownVote vote with
  | some msg => (db, .badRequest msg)
  | none => answerDownvoteHandler db aid vote now

/-- Evaluation of the `where` clause
`(column = $1 or $1 is null or $1 = '')` used by the question-list
query for both the `title` and the `category` parameter. -/
def sqlTextFilter (column : String) (param : Option String) : Bool :=
  match param with
  | none => true
  | some p => column == p || p == ""

/-- `req.query.x` in express: the value of the first matching key of
the query string, `undefined` (`none`) when absent. -/
def lookupParam (query : List (String × String)) (k : String) : Option String :=
  match query.find? (fun p => p.1 == k) with
  | some p => some p.2
  | none => none

/-- Handler body of `questionRouter.get("/")`: filter `questions` by the
optional `title`/`category` parameters, answer 404 on `rowCount === 0`
and 200 with the rows otherwise. -/
def getQuestionsHandler (db : DB) (title category : Option String) :
    Response (List Question) :=
  let results := db.questions.filter fun q =>
    sqlTextFilter q.title title && sqlTextFilter q.category category
  if results.length == 0 then .notFound "Question not found."
  else .ok "Successfully retrieved the list of questions." results

/-- Full route `GET /questions` (the `validateQuery` middleware runs
before the handler). -/
def getQuestions (db : DB) (query : List (String × String)) :
    Response (List Question) :=
  match validateQuery query with
  | some msg => .badRequest msg
  | none => getQuestionsHandler db (lookupParam query "title") (lookupParam query "category")

/-- Route `GET /questions/:id`: `select * from questions where id = $1`,
404 on zero rows, otherwise 200 with `rows[0]`. -/
def getQuestionById (db : DB) (qid : Int) : Response Question :=
  match db.questions.filter (fun q => q.id == qid) with
  | [] => .notFound "Question not found."
  | q :: _ => .ok "Successfully retrieved the list of questions." q

/-- Route `GET /questions/:id/answers`: `select * from answers where
question_id = $1`; the handler performs no `rowCount` check and always
answers 200 with the rows. -/
def getAnswersByQuestion (db : DB) (qid : Int) : Response (List Answer) :=
  .ok "Successfully retrieved the answers."
    (db.answers.filter fun a => a.question_id == qid)

/-- Handler body of `questionRouter.post("/")`: insert into `questions`
with `returning *`; the unreachable `none` branches stand for a
statement error (the validator has already ruled out SQL-NULL
parameters). -/
def postQuestionHandler (db : DB) (title desc category : JsValue) (now : Nat) :
    DB × Response Question :=
  match pgTextOfJs title, pgTextOfJs desc, pgTextOfJs category with
  | some t, some d, some c =>
    let q : Question := ⟨db.next_question_id, t, d, c, now, now⟩
    ({ db with
        questions := db.questions ++ [q]
        next_question_id := db.next_question_id + 1 },
     .created "Question created successfully." q)
  | _, _, _ =>
    (db, .serverError "Server could not create question because database connection.")

/-- Full route `POST /questions` (after `validateQuestion`). -/
def postQuestion (db : DB) (title desc category : JsValue) (now : Nat) :
    DB × Response Question :=
  match validateQuestion title desc category with
  | some msg => (db, .badRequest msg)
  | none => postQuestionHandler db title desc category now

/-- Handler body of `questionRouter.post("/:id/answers")`: insert into
`answers` with `returning *` (the source checks no `rowCount` and no
question existence here). -/
def postAnswerHandler (db : DB) (qid : Int) (content : JsValue) (now : Nat) :
    DB × Response Answer :=
  match pgTextOfJs content with
  | some c =>
    let a : Answer := ⟨db.next_answer_id, qid, c, now, now⟩
    ({ db with
        answers := db.answers ++ [a]
        next_answer_id := db.next_answer_id + 1 },
     .created "Answer created successfully." a)
  | none =>
    (db, .serverError "Server could not create answer because database connection.")

/-- Full route `POST /questions/:id/answers` (after `validateAnswer`). -/
def postAnswer (db : DB) (qid : Int) (content : JsValue) (now : Nat) :
    DB × Response Answer :=
  match validateAnswer content with
  | some msg => (db, .badRequest msg)
  | none => postAnswerHandler db qid content now

/-- Handler body of `questionRouter.put("/:id")`: `update questions set
title = $2, description = $3, category = $4, updated_at = $5 where
id = $1 returning *`; 404 when no row matched. -/
def putQuestionHandler (db : DB) (qid : Int) (title desc category : JsValue)
    (now : Nat) : DB × Response Question :=
  match pgTextOfJs title, pgTextOfJs desc, pgTextOfJs category with
  | some t, some d, some c =>
    let upd : Question → Question := fun q =>
      if q.id == qid then
        { q with title := t, description := d, category := c, updated_at := now }
      else q
    let db2 : DB := { db with questions := db.questions.map upd }
    match (db.questions.filter (fun q => q.id == qid)).map upd with
    | [] => (db2, .notFound "Question not found.")
    | r :: _ => (db2, .ok "Successfully updated the question." r)
  | _, _, _ =>
    (db, .serverError "Server could not update question because database connection.")

/-- Full route `PUT /questions/:id` (after `validateQuestion`). -/
def putQuestion (db : DB) (qid : Int) (title desc category : JsValue) (now : Nat) :
    DB × Response Question :=
  match validateQuestion title desc category with
  | some msg => (db, .badRequest msg)
  | none => putQuestionHandler db qid title desc category now

/-- Route `DELETE /questions/:id`: `delete from questions where id = $1`,
404 when no row matched.  The statement touches only the `questions`
table; no schema is shipped in the source and the specification treats
cascading deletion of answers or votes as an external-store concern it
does not specify, so none is modelled. -/
def deleteQuestion (db : DB) (qid : Int) : DB × Response Unit :=
  let remaining := db.questions.filter fun q => !(q.id == qid)
  let db2 : DB := { db with questions := remaining }
  if db.questions.length - remaining.length == 0 then
    (db2, .notFound "Question not found.")
  else
    (db2, .ok "Successfully deleted the question and answer." ())

/-- One HTTP request against any route of the application. -/
inductive Request where
  | listQuestions (query : List (String × String))
  | readQuestion (qid : Int)
  | readAnswers (qid : Int)
  | createQuestion (title desc category : JsValue)
  | createAnswer (qid : Int) (content : JsValue)
  | updateQuestion (qid : Int) (title desc category : JsValue)
  | removeQuestion (qid : Int)
  | qUpvote (qid : Int) (vote : JsValue)
  | qDownvote (qid : Int) (vote : JsValue)
  | aUpvote (aid : Int) (vote : JsValue)
  | aDownvote (aid : Int) (vote : JsValue)
deriving DecidableEq, Repr

/-- The state transition of one request: the database after the route
(middleware plus handler) has run.  Read-only routes leave the state
unchanged. -/
def step (db : DB) (req : Request) (now : Nat) : DB :=
  match req with
  | .listQuestions _ => db
  | .readQuestion _ => db
  | .readAnswers _ => db
  | .createQuestion t d c => (postQuestion db t d c now).1
  | .createAnswer qid c => (postAnswer db qid c now).1
  | .updateQuestion qid t d c => (putQuestion db qid t d c now).1
  | .removeQuestion qid => (deleteQuestion db qid).1
  | .qUpvote qid v => (postQuestionUpvote db qid v now).1
  | .qDownvote qid v => (postQuestionDownvote db qid v now).1
  | .aUpvote aid v => (postAnswerUpvote db aid v now).1
  | .aDownvote aid v => (postAnswerDownvote db aid v now).1

/-- One vote cast: a request to one of the four vote endpoints, with its
arrival time. -/
inductive VoteCast where
  | qUp (qid : Int) (vote : JsValue) (now : Nat)
  | qDown (qid : Int) (vote : JsValue) (now : Nat)
  | aUp (aid : Int) (vote : JsValue) (now : Nat)
  | aDown (aid : Int) (vote : JsValue) (now : Nat)
deriving DecidableEq, Repr

/-- Database after one vote cast. -/
def applyCast (db : DB) (c : VoteCast) : DB :=
  match c with
  | .qUp qid v now => (postQuestionUpvote db qid v now).1
  | .qDown qid v now => (postQuestionDownvote db qid v now).1
  | .aUp aid v now => (postAnswerUpvote db aid v now).1
  | .aDown aid v now => (postAnswerDownvote db aid v now).1

/-- Both vote-ledger tables of `db2` extend those of `db` by appended
rows only: no existing vote row is modified, reordered or deleted. -/
def LedgerExtends (db db2 : DB) : Prop :=
  (∃ t1, db2.question_votes = db.question_votes ++ t1) ∧
  (∃ t2, db2.answer_votes = db.answer_votes ++ t2)

/-- Every persisted vote event carries direction `+1` or `-1`. -/
def DirInv (db : DB) : Prop :=
  (∀ v ∈ db.question_votes, v.vote = 1 ∨ v.vote = -1) ∧
  (∀ v ∈ db.answer_votes, v.vote = 1 ∨ v.vote = -1)

theorem validateQuestionUpVote_none_iff (v : JsValue) :
    validateQuestionUpVote v = none ↔ v = JsValue.str "1" := by
  cases v with
  | undefined => simp [validateQuestionUpVote, jsTruthy, missingMsg]
  | null => simp [validateQuestionUpVote, jsTruthy, missingMsg]
  | bool b => cases b <;> simp [validateQuestionUpVote, jsTruthy, missingMsg]
  | num n =>
    by_cases hn : n = 0 <;> simp [validateQuestionUpVote, jsTruthy, hn, missingMsg]
  | str s =>
    by_cases hs : s = "1"
    · subst hs; simp [validateQuestionUpVote, jsTruthy]
    · by_cases he : s = ""
      · subst he; simp [validateQuestionUpVote, jsTruthy, missingMsg]
      · simp [validateQuestionUpVote, jsTruthy, he, hs, missingMsg]

theorem validateQuestionDownVote_none_iff (v : JsValue) :
    validateQuestionDownVote v = none ↔ v = JsValue.str "-1" := by
  cases v with
  | undefined => simp [validateQuestionDownVote, jsTruthy, missingMsg]
  | null => simp [validateQuestionDownVote, jsTruthy, missingMsg]
  | bool b => cases b <;> simp [validateQuestionDownVote, jsTruthy, missingMsg]
  | num n =>
    by_cases hn : n = 0 <;> simp [validateQuestionDownVote, jsTruthy, hn, missingMsg]
  | str s =>
    by_cases hs : s = "-1"
    · subst hs; simp [validateQuestionDownVote, jsTruthy]
    · by_cases he : s = ""
      · subst he; simp [validateQuestionDownVote, jsTruthy, missingMsg]
      · simp [validateQuestionDownVote, jsTruthy, he, hs, missingMsg]

theorem validateAnswerUpVote_none_iff (v : JsValue) :
    validateAnswerUpVote v = none ↔ v = JsValue.str "1" := by
  cases v with
  | undefined => simp [validateAnswerUpVote, jsTruthy, missingMsg]
  | null => simp [validateAnswerUpVote, jsTruthy, missingMsg]
  | bool b => cases b <;> simp [validateAnswerUpVote, jsTruthy, missingMsg]
  | num n =>
    by_cases hn : n = 0 <;> simp [validateAnswerUpVote, jsTruthy, hn, missingMsg]
  | str s =>
    by_cases hs : s = "1"
    · subst hs; simp [validateAnswerUpVote, jsTruthy]
    · by_cases he : s = ""
      · subst he; simp [validateAnswerUpVote, jsTruthy, missingMsg]
      · simp [validateAnswerUpVote, jsTruthy, he, hs, missingMsg]

theorem validateAnswerDownVote_none_iff (v : JsValue) :
    validateAnswerDownVote v = none ↔ v = JsValue.str "-1" := by
  cases v with
  | undefined => simp [validateAnswerDownVote, jsTruthy, missingMsg]
  | null => simp [validateAnswerDownVote, jsTruthy, missingMsg]
  | bool b => cases b <;> simp [validateAnswerDownVote, jsTruthy, missingMsg]
  | num n =>
    by_cases hn : n = 0 <;> simp [validateAnswerDownVote, jsTruthy, hn, missingMsg]
  | str s =>
    by_cases hs : s = "-1"
    · subst hs; simp [validateAnswerDownVote, jsTruthy]
    · by_cases he : s = ""
      · subst he; simp [validateAnswerDownVote, jsTruthy, missingMsg]
      · simp [validateAnswerDownVote, jsTruthy, he, hs, missingMsg]

theorem questionVoteStatement_fst (db : DB) (qid dir : Int) (now : Nat) :
    (questionVoteStatement db qid dir now).1 =
      { db with
        question_votes :=
          db.question_votes ++ [⟨db.next_question_vote_id, qid, dir, now, now⟩]
        next_question_vote_id := db.next_question_vote_id + 1 } := rfl

theorem answerVoteStatement_fst (db : DB) (aid dir : Int) (now : Nat) :
    (answerVoteStatement db aid dir now).1 =
      { db with
        answer_votes :=
          db.answer_votes ++ [⟨db.next_answer_vote_id, aid, dir, now, now⟩]
        next_answer_vote_id := db.next_answer_vote_id + 1 } := rfl

theorem postQuestionUpvote_state (db : DB) (qid : Int) (v : JsValue) (now : Nat) :
    (postQuestionUpvote db qid v now).1.questions = db.questions ∧
    (postQuestionUpvote db qid v now).1.answers = db.answers ∧
    (postQuestionUpvote db qid v now).1.answer_votes = db.answer_votes ∧
    (v = JsValue.str "1" →
      (postQuestionUpvote db qid v now).1.question_votes
        = db.question_votes ++ [⟨db.next_question_vote_id, qid, 1, now, now⟩]) ∧
    (v ≠ JsValue.str "1" →
      (postQuestionUpvote db qid v now).1 = db ∧
      ((postQuestionUpvote db qid v now).2).is400 = true) := by
  by_cases hv : v = JsValue.str "1"
  · subst hv
    have hfst : (postQuestionUpvote db qid (JsValue.str "1") now).1
        = (questionVoteStatement db qid 1 now).1 := by
      unfold postQuestionUpvote questionUpvoteHandler
      rw [show validateQuestionUpVote (JsValue.str "1") = none from by decide]
      rw [show pgIntParam (JsValue.str "1") = some 1 from by decide]
      cases hrows : (questionVoteStatement db qid 1 now).2 <;> simp [hrows]
    rw [hfst]
    exact ⟨rfl, rfl, rfl, fun _ => rfl, fun hne => absurd rfl hne⟩
  · obtain ⟨m, hm⟩ : ∃ m, validateQuestionUpVote v = some m := by
      rcases h : validateQuestionUpVote v with _ | m
      · exact absurd ((validateQuestionUpVote_none_iff v).1 h) hv
      · exact ⟨m, rfl⟩
    have hroute : postQuestionUpvote db qid v now = (db, Response.badRequest m) := by
      unfold postQuestionUpvote; rw [hm]
    rw [hroute]
    exact ⟨rfl, rfl, rfl, fun h => absurd h hv, fun _ => ⟨rfl, rfl⟩⟩

theorem postQuestionDownvote_state (db : DB) (qid : Int) (v : JsValue) (now : Nat) :
    (postQuestionDownvote db qid v now).1.questions = db.questions ∧
    (postQuestionDownvote db qid v now).1.answers = db.answers ∧
    (postQuestionDownvote db qid v now).1.answer_votes = db.answer_votes ∧
    (v = JsValue.str "-1" →
      (postQuestionDownvote db qid v now).1.question_votes
        = db.question_votes ++ [⟨db.next_question_vote_id, qid, -1, now, now⟩]) ∧
    (v ≠ JsValue.str "-1" →
      (postQuestionDownvote db qid v now).1 = db ∧
      ((postQuestionDownvote db qid v now).2).is400 = true) := by
  by_cases hv : v = JsValue.str "-1"
  · subst hv
    have hfst : (postQuestionDownvote db qid (JsValue.str "-1") now).1
        = (questionVoteStatement db qid (-1) now).1 := by
      unfold postQuestionDownvote questionDownvoteHandler
      rw [show validateQuestionDownVote (JsValue.str "-1") = none from by decide]
      rw [show pgIntParam (JsValue.str "-1") = some (-1) from by decide]
      cases hrows : (questionVoteStatement db qid (-1) now).2 <;> simp [hrows]
    rw [hfst]
    exact ⟨rfl, rfl, rfl, fun _ => rfl, fun hne => absurd rfl hne⟩
  · obtain ⟨m, hm⟩ : ∃ m, validateQuestionDownVote v = some m := by
      rcases h : validateQuestionDownVote v with _ | m
      · exact absurd ((validateQuestionDownVote_none_iff v).1 h) hv
      · exact ⟨m, rfl⟩
    have hroute : postQuestionDownvote db qid v now = (db, Response.badRequest m) := by
      unfold postQuestionDownvote; rw [hm]
    rw [hroute]
    exact ⟨rfl, rfl, rfl, fun h => absurd h hv, fun _ => ⟨rfl, rfl⟩⟩

theorem postAnswerUpvote_state (db : DB) (aid : Int) (v : JsValue) (now : Nat) :
    (postAnswerUpvote db aid v now).1.questions = db.questions ∧
    (postAnswerUpvote db aid v now).1.answers = db.answers ∧
    (postAnswerUpvote db aid v now).1.question_votes = db.question_votes ∧
    (v = JsValue.str "1" →
      (postAnswerUpvote db aid v now).1.answer_votes
        = db.answer_votes ++ [⟨db.next_answer_vote_id, aid, 1, now, now⟩]) ∧
    (v ≠ JsValue.str "1" →
      (postAnswerUpvote db aid v now).1 = db ∧
      ((postAnswerUpvote db aid v now).2).is400 = true) := by
  by_cases hv : v = JsValue.str "1"
  · subst hv
    have hfst : (postAnswerUpvote db aid (JsValue.str "1") now).1
        = (answerVoteStatement db aid 1 now).1 := by
      unfold postAnswerUpvote answerUpvoteHandler
      rw [show validateAnswerUpVote (JsValue.str "1") = none from by decide]
      rw [show pgIntParam (JsValue.str "1") = some 1 from by decide]
      cases hrows : (answerVoteStatement db aid 1 now).2 <;> simp [hrows]
    rw [hfst]
    exact ⟨rfl, rfl, rfl, fun _ => rfl, fun hne => absurd rfl hne⟩
  · obtain ⟨m, hm⟩ : ∃ m, validateAnswerUpVote v = some m := by
      rcases h : validateAnswerUpVote v with _ | m
      · exact absurd ((validateAnswerUpVote_none_iff v).1 h) hv
      · exact ⟨m, rfl⟩
    have hroute : postAnswerUpvote db aid v now = (db, Response.badRequest m) := by
      unfold postAnswerUpvote; rw [hm]
    rw [hroute]
    exact ⟨rfl, rfl, rfl, fun h => absurd h hv, fun _ => ⟨rfl, rfl⟩⟩

theorem postAnswerDownvote_state (db : DB) (aid : Int) (v : JsValue) (now : Nat) :
    (postAnswerDownvote db aid v now).1.questions = db.questions ∧
    (postAnswerDownvote db aid v now).1.answers = db.answers ∧
    (postAnswerDownvote db aid v now).1.question_votes = db.question_votes ∧
    (v = JsValue.str "-1" →
      (postAnswerDownvote db aid v now).1.answer_votes
        = db.answer_votes ++ [⟨db.next_answer_vote_id, aid, -1, now, now⟩]) ∧
    (v ≠ JsValue.str "-1" →
      (postAnswerDownvote db aid v now).1 = db ∧
      ((postAnswerDownvote db aid v now).2).is400 = true) := by
  by_cases hv : v = JsValue.str "-1"
  · subst hv
    have hfst : (postAnswerDownvote db aid (JsValue.str "-1") now).1
        = (answerVoteStatement db aid (-1) now).1 := by
      unfold postAnswerDownvote answerDownvoteHandler
      rw [show validateAnswerDownVote (JsValue.str "-1") = none from by decide]
      rw [show pgIntParam (JsValue.str "-1") = some (-1) from by decide]
      cases hrows : (answerVoteStatement db aid (-1) now).2 <;> simp [hrows]
    rw [hfst]
    exact ⟨rfl, rfl, rfl, fun _ => rfl, fun hne => absurd rfl hne⟩
  · obtain ⟨m, hm⟩ : ∃ m, validateAnswerDownVote v = some m := by
      rcases h : validateAnswerDownVote v with _ | m
      · exact absurd ((validateAnswerDownVote_none_iff v).1 h) hv
      · exact ⟨m, rfl⟩
    have hroute : postAnswerDownvote db aid v now = (db, Response.badRequest m) := by
      unfold postAnswerDownvote; rw [hm]
    rw [hroute]
    exact ⟨rfl, rfl, rfl, fun h => absurd h hv, fun _ => ⟨rfl, rfl⟩⟩

theorem postQuestion_votes_frame (db : DB) (t d c : JsValue) (now : Nat) :
    (postQuestion db t d c now).1.question_votes = db.question_votes ∧
    (postQuestion db t d c now).1.answer_votes = db.answer_votes := by
  unfold postQuestion postQuestionHandler
  rcases validateQuestion t d c with _ | m
  · rcases pgTextOfJs t with _ | a <;> rcases pgTextOfJs d with _ | b <;>
      rcases pgTextOfJs c with _ | e <;> exact ⟨rfl, rfl⟩
  · exact ⟨rfl, rfl⟩

theorem postAnswer_votes_frame (db : DB) (qid : Int) (c : JsValue) (now : Nat) :
    (postAnswer db qid c now).1.question_votes = db.question_votes ∧
    (postAnswer db qid c now).1.answer_votes = db.answer_votes := by
  unfold postAnswer postAnswerHandler
  rcases validateAnswer c with _ | m
  · rcases pgTextOfJs c with _ | a <;> exact ⟨rfl, rfl⟩
  · exact ⟨rfl, rfl⟩

theorem putQuestion_votes_frame (db : DB) (qid : Int) (t d c : JsValue) (now : Nat) :
    (putQuestion db qid t d c now).1.question_votes = db.question_votes ∧
    (putQuestion db qid t d c now).1.answer_votes = db.answer_votes := by
  unfold putQuestion putQuestionHandler
  rcases validateQuestion t d c with _ | m
  · rcases pgTextOfJs t with _ | a
    · exact ⟨rfl, rfl⟩
    rcases pgTextOfJs d with _ | b
    · exact ⟨rfl, rfl⟩
    rcases pgTextOfJs c with _ | e
    · exact ⟨rfl, rfl⟩
    refine ⟨?_, ?_⟩ <;> · dsimp only; split <;> rfl
  · exact ⟨rfl, rfl⟩

theorem deleteQuestion_fst (db : DB) (qid : Int) :
    (deleteQuestion db qid).1
      = { db with questions := db.questions.filter fun q => !(q.id == qid) } := by
  unfold deleteQuestion
  dsimp only
  split <;> rfl

theorem ledger_keep {db db2 : DB}
    (h1 : db2.question_votes = db.question_votes)
    (h2 : db2.answer_votes = db.answer_votes)
    (hdir : DirInv db) : LedgerExtends db db2 ∧ DirInv db2 := by
  refine ⟨⟨⟨[], by rw [h1, List.append_nil]⟩, ⟨[], by rw [h2, List.append_nil]⟩⟩, ?_, ?_⟩
  · rw [h1]; exact hdir.1
  · rw [h2]; exact hdir.2

theorem ledger_push_q {db db2 : DB} {e : VoteEvent}
    (h1 : db2.question_votes = db.question_votes ++ [e])
    (h2 : db2.answer_votes = db.answer_votes)
    (he : e.vote = 1 ∨ e.vote = -1)
    (hdir : DirInv db) : LedgerExtends db db2 ∧ DirInv db2 := by
  refine ⟨⟨⟨[e], h1⟩, ⟨[], by rw [h2, List.append_nil]⟩⟩, ?_, ?_⟩
  · rw [h1]
    intro v hv
    rcases List.mem_append.1 hv with h | h
    · exact hdir.1 v h
    · rw [List.mem_singleton.1 h]; exact he
  · rw [h2]; exact hdir.2

theorem ledger_push_a {db db2 : DB} {e : VoteEvent}
    (h1 : db2.answer_votes = db.answer_votes ++ [e])
    (h2 : db2.question_votes = db.question_votes)
    (he : e.vote = 1 ∨ e.vote = -1)
    (hdir : DirInv db) : LedgerExtends db db2 ∧ DirInv db2 := by
  refine ⟨⟨⟨[], by rw [h2, List.append_nil]⟩, ⟨[e], h1⟩⟩, ?_, ?_⟩
  · rw [h2]; exact hdir.1
  · rw [h1]
    intro v hv
    rcases List.mem_append.1 hv with h | h
    · exact hdir.2 v h
    · rw [List.mem_singleton.1 h]; exact he

/-- Claim C8: every operation of the system only ever appends to the two
vote-event tables — no existing vote row is modified or deleted — and,
starting from a state in which every persisted vote direction is `+1`
or `-1`, the state after any request still satisfies that invariant (the
validators admit only the literals `"1"` and `"-1"`, so no other
direction value is ever written; the state carries no stored counter). -/
theorem append_only_ledger_invariant (db : DB) (req : Request) (now : Nat)
    (hdir : DirInv db) :
    LedgerExtends db (step db req now) ∧ DirInv (step db req now) := by
  cases req with
  | listQuestions q => exact ledger_keep rfl rfl hdir
  | readQuestion qid => exact ledger_keep rfl rfl hdir
  | readAnswers qid => exact ledger_keep rfl rfl hdir
  | createQuestion t d c =>
    obtain ⟨h1, h2⟩ := postQuestion_votes_frame db t d c now
    exact ledger_keep h1 h2 hdir
  | createAnswer qid c =>
    obtain ⟨h1, h2⟩ := postAnswer_votes_frame db qid c now
    exact ledger_keep h1 h2 hdir
  | updateQuestion qid t d c =>
    obtain ⟨h1, h2⟩ := putQuestion_votes_frame db qid t d c now
    exact ledger_keep h1 h2 hdir
  | removeQuestion qid =>
    have e1 : (deleteQuestion db qid).1.question_votes = db.question_votes := by
      rw [deleteQuestion_fst]
    have e2 : (deleteQuestion db qid).1.answer_votes = db.answer_votes := by
      rw [deleteQuestion_fst]
    exact ledger_keep e1 e2 hdir
  | qUpvote qid v =>
    obtain ⟨_, _, h3, h4, h5⟩ := postQuestionUpvote_state db qid v now
    by_cases hv : v = JsValue.str "1"
    · exact ledger_push_q (h4 hv) h3 (Or.inl rfl) hdir
    · obtain ⟨heq, _⟩ := h5 hv
      have e1 : (postQuestionUpvote db qid v now).1.question_votes = db.question_votes := by
        rw [heq]
      have e2 : (postQuestionUpvote db qid v now).1.answer_votes = db.answer_votes := by
        rw [heq]
      exact ledger_keep e1 e2 hdir
  | qDownvote qid v =>
    obtain ⟨_, _, h3, h4, h5⟩ := postQuestionDownvote_state db qid v now
    by_cases hv : v = JsValue.str "-1"
    · exact ledger_push_q (h4 hv) h3 (Or.inr rfl) hdir
    · obtain ⟨heq, _⟩ := h5 hv
      have e1 : (postQuestionDownvote db qid v now).1.question_votes = db.question_votes := by
        rw [heq]
      have e2 : (postQuestionDownvote db qid v now).1.answer_votes = db.answer_votes := by
        rw [heq]
      exact ledger_keep e1 e2 hdir
  | aUpvote aid v =>
    obtain ⟨_, _, h3, h4, h5⟩ := postAnswerUpvote_state db aid v now
    by_cases hv : v = JsValue.str "1"
    · exact ledger_push_a (h4 hv) h3 (Or.inl rfl) hdir
    · obtain ⟨heq, _⟩ := h5 hv
      have e1 : (postAnswerUpvote db aid v now).1.question_votes = db.question_votes := by
        rw [heq]
      have e2 : (postAnswerUpvote db aid v now).1.answer_votes = db.answer_votes := by
        rw [heq]
      exact ledger_keep e1 e2 hdir
  | aDownvote aid v =>
    obtain ⟨_, _, h3, h4, h5⟩ := postAnswerDownvote_state db aid v now
    by_cases hv : v = JsValue.str "-1"
    · exact ledger_push_a (h4 hv) h3 (Or.inr rfl) hdir
    · obtain ⟨heq, _⟩ := h5 hv
      have e1 : (postAnswerDownvote db aid v now).1.question_votes = db.question_votes := by
        rw [heq]
      have e2 : (postAnswerDownvote db aid v now).1.answer_votes = db.answer_votes := by
        rw [heq]
      exact ledger_keep e1 e2 hdir

theorem append_only_ledger_invariant_witness :
    DirInv (⟨[], [], [], [], 1, 1, 1, 1⟩ : DB)
  ∧ (LedgerExtends (⟨[], [], [], [], 1, 1, 1, 1⟩ : DB)
      (step ⟨[], [], [], [], 1, 1, 1, 1⟩ (Request.qUpvote 7 (JsValue.str "1")) 3)
    ∧ DirInv (step ⟨[], [], [], [], 1, 1, 1, 1⟩ (Request.qUpvote 7 (JsValue.str "1")) 3)) :=
  ⟨⟨by simp, by simp⟩,
   append_only_ledger_invariant ⟨[], [], [], [], 1, 1, 1, 1⟩
     (Request.qUpvote 7 (JsValue.str "1")) 3 ⟨by simp, by simp⟩⟩

/-- Claim C7: any sequence of vote casts, of any length, direction and
outcome, leaves the `questions` and `answers` tables — hence every
item's content fields and both timestamps — exactly as they were:
voting only inserts vote events and reads items. -/
theorem voting_never_mutates_items (db : DB) (cs : List VoteCast) :
    (cs.foldl applyCast db).questions = db.questions ∧
    (cs.foldl applyCast db).answers = db.answers := by
  induction cs generalizing db with
  | nil => exact ⟨rfl, rfl⟩
  | cons c rest ih =>
    have hstep : (applyCast db c).questions = db.questions ∧
        (applyCast db c).answers = db.answers := by
      cases c with
      | qUp qid v n =>
        exact ⟨(postQuestionUpvote_state db qid v n).1,
               (postQuestionUpvote_state db qid v n).2.1⟩
      | qDown qid v n =>
        exact ⟨(postQuestionDownvote_state db qid v n).1,
               (postQuestionDownvote_state db qid v n).2.1⟩
      | aUp aid v n =>
        exact ⟨(postAnswerUpvote_state db aid v n).1,
               (postAnswerUpvote_state db aid v n).2.1⟩
      | aDown aid v n =>
        exact ⟨(postAnswerDownvote_state db aid v n).1,
               (postAnswerDownvote_state db aid v n).2.1⟩
    exact ⟨((ih (applyCast db c)).1).trans hstep.1,
           ((ih (applyCast db c)).2).trans hstep.2⟩

theorem voting_never_mutates_items_witness :
    (([VoteCast.qUp 1 (JsValue.str "1") 2, VoteCast.aDown 3 (JsValue.str "-1") 4].foldl
        applyCast (⟨[⟨1, "t", "d", "c", 0, 0⟩], [], [], [], 2, 1, 1, 1⟩ : DB)).questions
      = (⟨[⟨1, "t", "d", "c", 0, 0⟩], [], [], [], 2, 1, 1, 1⟩ : DB).questions)
  ∧ (([VoteCast.qUp 1 (JsValue.str "1") 2, VoteCast.aDown 3 (JsValue.str "-1") 4].foldl
        applyCast (⟨[⟨1, "t", "d", "c", 0, 0⟩], [], [], [], 2, 1, 1, 1⟩ : DB)).answers
      = (⟨[⟨1, "t", "d", "c", 0, 0⟩], [], [], [], 2, 1, 1, 1⟩ : DB).answers) :=
  voting_never_mutates_items ⟨[⟨1, "t", "d", "c", 0, 0⟩], [], [], [], 2, 1, 1, 1⟩
    [VoteCast.qUp 1 (JsValue.str "1") 2, VoteCast.aDown 3 (JsValue.str "-1") 4]

/-- Claim C3: the question upvote endpoint appends a direction `+1`
ledger entry exactly when the body's vote field is the string `"1"`;
for any other value the request is rejected with 400 by the middleware,
before the handler runs, and the database is untouched; symmetrically
the downvote endpoint accepts only `"-1"` and appends direction `-1`,
so a downvote cannot be recorded through the upvote endpoint. -/
theorem endpoint_direction_binding (db : DB) (qid : Int) (v : JsValue) (now : Nat) :
    (v = JsValue.str "1" →
      (postQuestionUpvote db qid v now).1.question_votes
        = db.question_votes ++ [⟨db.next_question_vote_id, qid, 1, now, now⟩])
  ∧ (v ≠ JsValue.str "1" →
      (postQuestionUpvote db qid v now).1 = db ∧
      ((postQuestionUpvote db qid v now).2).is400 = true)
  ∧ (v = JsValue.str "-1" →
      (postQuestionDownvote db qid v now).1.question_votes
        = db.question_votes ++ [⟨db.next_question_vote_id, qid, -1, now, now⟩])
  ∧ (v ≠ JsValue.str "-1" →
      (postQuestionDownvote db qid v now).1 = db ∧
      ((postQuestionDownvote db qid v now).2).is400 = true) := by
  obtain ⟨_, _, _, h4, h5⟩ := postQuestionUpvote_state db qid v now
  obtain ⟨_, _, _, g4, g5⟩ := postQuestionDownvote_state db qid v now
  exact ⟨h4, h5, g4, g5⟩

theorem endpoint_direction_binding_witness :
    ((postQuestionUpvote ⟨[], [], [], [], 1, 1, 1, 1⟩ 7 (JsValue.str "1") 3).1.question_votes
      = (⟨[], [], [], [], 1, 1, 1, 1⟩ : DB).question_votes ++ [⟨1, 7, 1, 3, 3⟩])
  ∧ ((postQuestionUpvote ⟨[], [], [], [], 1, 1, 1, 1⟩ 7 (JsValue.str "-1") 3).1
      = (⟨[], [], [], [], 1, 1, 1, 1⟩ : DB)
    ∧ ((postQuestionUpvote ⟨[], [], [], [], 1, 1, 1, 1⟩ 7 (JsValue.str "-1") 3).2).is400 = true) :=
  ⟨(endpoint_direction_binding ⟨[], [], [], [], 1, 1, 1, 1⟩ 7 (JsValue.str "1") 3).1 rfl,
   (endpoint_direction_binding ⟨[], [], [], [], 1, 1, 1, 1⟩ 7 (JsValue.str "-1") 3).2.1 (by decide)⟩

theorem questionVoteStatement_rows_absent (db : DB) (qid dir : Int) (now : Nat)
    (habs : ∀ q ∈ db.questions, q.id ≠ qid) :
    (questionVoteStatement db qid dir now).2 = [] := by
  have hf : db.questions.filter (fun q => q.id == qid) = [] := by
    rw [List.filter_eq_nil_iff]
    intro q hq
    simpa using habs q hq
  unfold questionVoteStatement
  dsimp only
  rw [hf]
  rfl

/-- Claim C4: a vote with the valid endpoint direction against a target
id for which no question exists is answered 404 NotFound, and yet the
vote event has already been durably appended to the ledger — the insert
inside the CTE has no integrity dependency on the target and is not
rolled back when the zero-row join is detected. -/
theorem orphan_vote_on_notFound (db : DB) (qid : Int) (now : Nat)
    (habs : ∀ q ∈ db.questions, q.id ≠ qid) :
    ((postQuestionUpvote db qid (JsValue.str "1") now).2
        = Response.notFound "Question not found."
      ∧ (postQuestionUpvote db qid (JsValue.str "1") now).1.question_votes
        = db.question_votes ++ [⟨db.next_question_vote_id, qid, 1, now, now⟩])
  ∧ ((postQuestionDownvote db qid (JsValue.str "-1") now).2
        = Response.notFound "Question not found."
      ∧ (postQuestionDownvote db qid (JsValue.str "-1") now).1.question_votes
        = db.question_votes ++ [⟨db.next_question_vote_id, qid, -1, now, now⟩]) := by
  have hup : postQuestionUpvote db qid (JsValue.str "1") now
      = ((questionVoteStatement db qid 1 now).1,
         Response.notFound "Question not found.") := by
    unfold postQuestionUpvote questionUpvoteHandler
    rw [show validateQuestionUpVote (JsValue.str "1") = none from by decide]
    rw [show pgIntParam (JsValue.str "1") = some 1 from by decide]
    dsimp only
    rw [questionVoteStatement_rows_absent db qid 1 now habs]
  have hdn : postQuestionDownvote db qid (JsValue.str "-1") now
      = ((questionVoteStatement db qid (-1) now).1,
         Response.notFound "Question not found.") := by
    unfold postQuestionDownvote questionDownvoteHandler
    rw [show validateQuestionDownVote (JsValue.str "-1") = none from by decide]
    rw [show pgIntParam (JsValue.str "-1") = some (-1) from by decide]
    dsimp only
    rw [questionVoteStatement_rows_absent db qid (-1) now habs]
  rw [hup, hdn]
  exact ⟨⟨rfl, rfl⟩, ⟨rfl, rfl⟩⟩

theorem orphan_vote_on_notFound_witness :
    (∀ q ∈ (⟨[], [], [], [], 1, 1, 1, 1⟩ : DB).questions, q.id ≠ 999)
  ∧ ((postQuestionUpvote ⟨[], [], [], [], 1, 1, 1, 1⟩ 999 (JsValue.str "1") 7).2
      = Response.notFound "Question not found."
    ∧ (postQuestionUpvote ⟨[], [], [], [], 1, 1, 1, 1⟩ 999 (JsValue.str "1") 7).1.question_votes
      = (⟨[], [], [], [], 1, 1, 1, 1⟩ : DB).question_votes ++ [⟨1, 999, 1, 7, 7⟩]) :=
  ⟨by simp,
   (orphan_vote_on_notFound ⟨[], [], [], [], 1, 1, 1, 1⟩ 999 7 (by simp)).1⟩

set_option maxRecDepth 8000 in
/-- Claim C5: answer validation rejects an absent or empty `content`
field with 400, accepts content of exactly 300 characters, and rejects
content strictly longer than 300 characters (301 is rejected). -/
theorem answer_content_boundary (s : String) :
    validateAnswer JsValue.undefined = some missingMsg
  ∧ validateAnswer (JsValue.str "") = some missingMsg
  ∧ (s ≠ "" → (validateAnswer (JsValue.str s) = none ↔ s.length ≤ 300))
  ∧ validateAnswer (JsValue.str (String.mk (List.replicate 300 'x'))) = none
  ∧ validateAnswer (JsValue.str (String.mk (List.replicate 301 'x')))
      = some "Textlength is over 300." := by
  refine ⟨by decide, by decide, ?_, by decide, by decide⟩
  intro hs
  have ht : (s != "") = true := by simpa using hs
  by_cases hgt : ((s.length : Int) > 300)
  · simp only [validateAnswer, jsTruthy, ht, jsGtNum, jsLength, hgt]
    constructor
    · intro h; simp at h
    · intro h; omega
  · simp only [validateAnswer, jsTruthy, ht, jsGtNum, jsLength, hgt]
    constructor
    · intro _; omega
    · intro _; simp

theorem answer_content_boundary_witness :
    ("a" : String) ≠ ""
  ∧ (validateAnswer (JsValue.str "a") = none ↔ ("a" : String).length ≤ 300) :=
  ⟨by decide, (answer_content_boundary "a").2.2.1 (by decide)⟩

/-- Claim C6: the question-list query validator accepts a request exactly
when every query-parameter name is `title` or `category` (the empty
query included), and any other name present makes it reject with the
single 400 message, independently of other parameters. -/
theorem query_allowlist (query : List (String × String)) :
    (validateQuery query = none ↔ ∀ p ∈ query, p.1 = "title" ∨ p.1 = "category")
  ∧ (validateQuery query = none ∨
     validateQuery query = some "Please enter a correct query.") := by
  induction query with
  | nil => exact ⟨by simp [validateQuery], Or.inl rfl⟩
  | cons p rest ih =>
    obtain ⟨k, val⟩ := p
    by_cases hk : (k != "title" && k != "category") = true
    · have hcase : validateQuery ((k, val) :: rest)
          = some "Please enter a correct query." := by
        unfold validateQuery
        rw [if_pos hk]
      have hkk : k ≠ "title" ∧ k ≠ "category" := by
        simpa [Bool.and_eq_true, bne_iff_ne] using hk
      refine ⟨?_, Or.inr hcase⟩
      rw [hcase]
      constructor
      · intro h; simp at h
      · intro h
        rcases h (k, val) (List.mem_cons_self (k, val) rest) with h1 | h1
        · exact absurd h1 hkk.1
        · exact absurd h1 hkk.2
    · have hcase : validateQuery ((k, val) :: rest) = validateQuery rest := by
        show (if (k != "title" && k != "category") = true
            then some "Please enter a correct query." else validateQuery rest)
          = validateQuery rest
        rw [if_neg hk]
      have hkk : k = "title" ∨ k = "category" := by
        have := hk
        simp only [Bool.and_eq_true, bne_iff_ne] at this
        rcases not_and_or.1 this with h | h
        · exact Or.inl (not_not.1 h)
        · exact Or.inr (not_not.1 h)
      refine ⟨?_, hcase ▸ ih.2⟩
      rw [hcase, ih.1]
      constructor
      · intro h q hq
        rcases List.mem_cons.1 hq with rfl | hq2
        · exact hkk
        · exact h q hq2
      · intro h q hq
        exact h q (List.mem_cons_of_mem _ hq)

theorem query_allowlist_witness :
    (validateQuery [("title", "x"), ("category", "y")] = none ↔
      ∀ p ∈ [("title", "x"), ("category", "y")],
        p.1 = "title" ∨ p.1 = "category")
  ∧ (validateQuery [("bogus", "x")] = none ∨
     validateQuery [("bogus", "x")] = some "Please enter a correct query.") :=
  ⟨(query_allowlist [("title", "x"), ("category", "y")]).1,
   (query_allowlist [("bogus", "x")]).2⟩

/-- Claim C9 counterexample: a direction value that is present but falsy
(the empty string, the number 0) is rejected with the MissingField
message, not with the endpoint's "Please enter only 1." message, so the
claimed classification of every present value as InvalidDirection is
false. -/
theorem falsy_present_direction_counterexample :
    validateQuestionUpVote (JsValue.str "") ≠ some "Please enter only 1."
  ∧ validateQuestionUpVote (JsValue.str "")
      = some "Missing or invalid request data."
  ∧ validateAnswerUpVote (JsValue.num 0) ≠ some "Please enter only 1."
  ∧ validateAnswerUpVote (JsValue.num 0)
      = some "Missing or invalid request data." := by
  decide

/-- Claim C9 as amended: a vote-cast body whose direction field is falsy
(absent, null, false, 0 or the empty string) is rejected with the
MissingField message, while a truthy direction different from the
endpoint's expected literal is rejected with the endpoint-specific
InvalidDirection message. -/
theorem rejection_kind_by_truthiness (v : JsValue) :
    (jsTruthy v = false →
      validateQuestionUpVote v = some missingMsg ∧
      validateAnswerUpVote v = some missingMsg ∧
      validateQuestionDownVote v = some missingMsg ∧
      validateAnswerDownVote v = some missingMsg)
  ∧ (jsTruthy v = true → v ≠ JsValue.str "1" →
      validateQuestionUpVote v = some "Please enter only 1." ∧
      validateAnswerUpVote v = some "Please enter only 1.")
  ∧ (jsTruthy v = true → v ≠ JsValue.str "-1" →
      validateQuestionDownVote v = some "Please enter only -1." ∧
      validateAnswerDownVote v = some "Please enter only -1.") := by
  refine ⟨?_, ?_, ?_⟩
  · intro hf
    refine ⟨?_, ?_, ?_, ?_⟩ <;>
      simp [validateQuestionUpVote, validateAnswerUpVote,
        validateQuestionDownVote, validateAnswerDownVote, hf]
  · intro ht hne
    have hb : (v != JsValue.str "1") = true := by simpa using hne
    constructor <;>
      simp [validateQuestionUpVote, validateAnswerUpVote, ht, hb]
  · intro ht hne
    have hb : (v != JsValue.str "-1") = true := by simpa using hne
    constructor <;>
      simp [validateQuestionDownVote, validateAnswerDownVote, ht, hb]

theorem rejection_kind_by_truthiness_witness :
    jsTruthy (JsValue.num 2) = true
  ∧ JsValue.num 2 ≠ JsValue.str "1"
  ∧ (validateQuestionUpVote (JsValue.num 2) = some "Please enter only 1."
     ∧ validateAnswerUpVote (JsValue.num 2) = some "Please enter only 1.") :=
  ⟨by decide, by decide,
   (rejection_kind_by_truthiness (JsValue.num 2)).2.1 (by decide) (by decide)⟩

/-- Claim C10: a question-list request that passes the query allow-list
is answered 404 with "Question not found." exactly when the (possibly
filtered) selection is empty, and every 200 response carries at least
one question. -/
theorem empty_question_list_404 (db : DB) (query : List (String × String))
    (hq : validateQuery query = none) :
    (getQuestions db query = Response.notFound "Question not found."
      ↔ db.questions.filter (fun q =>
          sqlTextFilter q.title (lookupParam query "title")
          && sqlTextFilter q.category (lookupParam query "category")) = [])
  ∧ (∀ msg rows, getQuestions db query = Response.ok msg rows → rows ≠ []) := by
  have hroute : getQuestions db query
      = getQuestionsHandler db (lookupParam query "title")
          (lookupParam query "category") := by
    unfold getQuestions
    rw [hq]
  rw [hroute]
  unfold getQuestionsHandler
  dsimp only
  by_cases hres : db.questions.filter (fun q =>
      sqlTextFilter q.title (lookupParam query "title")
      && sqlTextFilter q.category (lookupParam query "category")) = []
  · rw [hres]
    simp
  · have hcond : ¬(((db.questions.filter (fun q =>
        sqlTextFilter q.title (lookupParam query "title")
        && sqlTextFilter q.category (lookupParam query "category"))).length == 0) = true) := by
      simpa [List.length_eq_zero] using hres
    rw [if_neg hcond]
    constructor
    · constructor
      · intro h; exact absurd h (by simp)
      · intro h; exact absurd h hres
    · intro msg rows h
      injection h with h1 h2
      rw [← h2]
      exact hres

theorem empty_question_list_404_witness :
    validateQuery ([] : List (String × String)) = none
  ∧ (∀ msg rows,
      getQuestions (⟨[], [], [], [], 1, 1, 1, 1⟩ : DB) [] = Response.ok msg rows →
      rows ≠ []) :=
  ⟨rfl, (empty_question_list_404 ⟨[], [], [], [], 1, 1, 1, 1⟩ [] rfl).2⟩

/-- Claim C1, evaluated at its failing input: question 1 exists and its
ledger holds one `-1` event (left there by an earlier downvote cast
that itself was answered 404).  A valid upvote is then accepted, and
the response tallies are upvote = 0, downvote = 1: the aggregate is
computed over the pre-statement snapshot and so excludes the vote just
inserted, where the claim demands upvote = N+1 = 1 and downvote = M = 0
over all events including the current one. -/
theorem tally_excludes_current_vote :
    ((postQuestionDownvote
        (⟨[⟨1, "t", "d", "c", 0, 0⟩], [], [], [], 2, 1, 1, 1⟩ : DB)
        1 (JsValue.str "-1") 5).2
      = Response.notFound "Question not found.")
  ∧ ((postQuestionUpvote
        (postQuestionDownvote
          (⟨[⟨1, "t", "d", "c", 0, 0⟩], [], [], [], 2, 1, 1, 1⟩ : DB)
          1 (JsValue.str "-1") 5).1
        1 (JsValue.str "1") 6).2
      = Response.ok "Successfully upvoted the question."
          ⟨1, "t", "d", "c", 0, 0, 0, 1⟩) := by
  decide

/-- Claim C2, evaluated at its failing input: question 5 exists with no
prior votes, yet a valid upvote is answered 404 "Question not found."
— the main query cannot see the row the CTE inserted, the pre-statement
snapshot of `question_votes` is empty, so the inner join returns zero
rows — while the vote event is nevertheless persisted.  The claim
demands 200 with upvote = 1, downvote = 0 here, and 404 only for absent
targets. -/
theorem notFound_despite_existing_target :
    ((postQuestionUpvote
        (⟨[⟨5, "t", "d", "c", 0, 0⟩], [], [], [], 6, 1, 1, 1⟩ : DB)
        5 (JsValue.str "1") 10).2
      = Response.notFound "Question not found.")
  ∧ ((postQuestionUpvote
        (⟨[⟨5, "t", "d", "c", 0, 0⟩], [], [], [], 6, 1, 1, 1⟩ : DB)
        5 (JsValue.str "1") 10).1.question_votes
      = [⟨1, 5, 1, 10, 10⟩]) := by
  decide

end Quora
